import Mathlib

/-!
Verification development for the double-entry ledger core of the MASJID-APP
repository.  The definitions below are a shallow embedding of the data model
in `src/models.py` and of the posting, verification, approval, reversal and
guard logic in `src/routes/income.py`, `src/routes/expenses.py` and
`src/routes/auth.py`.  Monetary amounts (`Decimal`, SQL `Numeric(15,2)`) are
modelled as exact rationals; SQL rows become Lean structures; the database
session becomes explicit lists of rows; a route handler that flashes an error
and redirects without committing becomes an `Except` error, modelling the
rejection with no state change.
-/

/-- Calendar date as stored in the `date` columns: year, month, day. -/
structure Date where
  year : Nat
  month : Nat
  day : Nat
  deriving DecidableEq

/-- Date ordering, modelling the SQL comparisons used by the
`JournalEntry.date >= start_date` / `date <= end_date` query filters. -/
def dateLeb (a b : Date) : Bool :=
  decide (a.year < b.year ∨ (a.year = b.year ∧
    (a.month < b.month ∨ (a.month = b.month ∧ a.day ≤ b.day))))

/-- Modelled from the spec: the route modules import a `Role` class from
`models` that is absent from `src/models.py`.  Per the spec (sections 4.3 and
6) every authenticated actor carries a role, with a distinguished top
administrative role (`Role.ADMIN` at the call sites) used for the
separation-of-duties override.  Only the admin/non-admin distinction is ever
consulted by the routes. -/
inductive Role where
  | admin
  | staff
  deriving DecidableEq

/-- The authenticated actor: `User` row of `src/models.py` restricted to the
fields the ledger core reads (`id`, the spec-modelled `role`, and the
flask-login `is_authenticated` flag consulted by `permission_required`). -/
structure User where
  id : Nat
  role : Role
  is_authenticated : Bool
  deriving DecidableEq

/-- `User.has_permission` from `src/models.py`: returns `True` for every
permission name. -/
def User.has_permission (_u : User) (_permission : String) : Bool :=
  true

/-- `User.is_read_only` from `src/models.py`: returns `False` for every user. -/
def User.is_read_only (_u : User) : Bool :=
  false

/-- The `permission_required` decorator from `src/routes/auth.py`: it only
checks `current_user.is_authenticated` (redirecting to the login page
otherwise) and never consults the named permission.  The result is whether the
wrapped handler is invoked. -/
def permission_required_allows (_permission : String) (u : User) : Bool :=
  u.is_authenticated

/-- The `read_only_check` decorator from `src/routes/auth.py`: it invokes the
wrapped handler unconditionally. -/
def read_only_check_allows (_u : User) : Bool :=
  true

/-- `Account` row of `src/models.py` (fields relevant to the ledger core).
The store-assigned surrogate `id` is carried explicitly; in the default chart
it is modelled by the numeric value of the account code, which is distinct
across the chart. -/
structure Account where
  id : Nat
  code : String
  name : String
  account_type : String
  fund_type : String
  description : String
  is_active : Bool
  deriving DecidableEq

/-- `JournalEntry` row of `src/models.py`: one debit-or-credit line of a
posting. -/
structure JournalEntry where
  transaction_id : Nat
  account_id : Nat
  debit_amount : Rat
  credit_amount : Rat
  date : Date
  description : String
  deriving DecidableEq

/-- `Transaction` row of `src/models.py`. -/
structure Transaction where
  id : Nat
  reference_number : String
  transaction_type : String
  date : Date
  description : String
  fund_type : String
  total_amount : Rat
  is_reversed : Bool
  reversal_of_id : Option Nat
  created_by_id : Nat
  deriving DecidableEq

/-- `Income` row of `src/models.py` (fields read or written by the income
routes; timestamps and contact fields are omitted). -/
structure Income where
  id : Nat
  receipt_number : String
  transaction_id : Option Nat
  date : Date
  category : String
  fund_type : String
  source : String
  payment_mode : String
  amount : Rat
  description : String
  verification_status : String
  verification_remarks : String
  verified_by_id : Option Nat
  entered_by_id : Nat
  is_reversed : Bool
  reversal_of_id : Option Nat
  deriving DecidableEq

/-- `Expense` row of `src/models.py` (fields read or written by the expense
routes; timestamps and the uploaded-document path are omitted). -/
structure Expense where
  id : Nat
  voucher_number : String
  transaction_id : Option Nat
  date : Date
  category : String
  fund_type : String
  payee : String
  description : String
  amount : Rat
  payment_mode : String
  verification_status : String
  verification_remarks : String
  verified_by_id : Option Nat
  approval_status : String
  approval_remarks : String
  approved_by_id : Option Nat
  entered_by_id : Nat
  is_reversed : Bool
  reversal_of_id : Option Nat
  deriving DecidableEq

/-- `PeriodLock` row of `src/models.py`: a locked (year, month) accounting
period.  The routes call the lock check without a tenant argument, so the
lock set is modelled for the single tenant in scope. -/
structure PeriodLock where
  year : Nat
  month : Nat
  deriving DecidableEq

/-- `PeriodLock.is_period_locked` from `src/models.py`: a date is locked iff
some `PeriodLock` row matches its year and month. -/
def is_period_locked (locks : List PeriodLock) (d : Date) : Bool :=
  locks.any (fun l => l.year == d.year && l.month == d.month)

/-- `IncomeCategory.FUND_MAPPING` from `src/models.py`, with the
`dict.get(category, FundType.GENERAL)` default. -/
def FUND_MAPPING (category : String) : String :=
  if category = "zakat" then "zakat"
  else if category = "sadaqah" then "sadaqah"
  else if category = "fitrah" then "zakat"
  else if category = "lillah" then "lillah"
  else if category = "donation" then "general"
  else if category = "fidyah" then "sadaqah"
  else if category = "kaffarah" then "sadaqah"
  else if category = "aqeeqah" then "sadaqah"
  else if category = "qurbani" then "sadaqah"
  else if category = "rental" then "general"
  else if category = "special" then "general"
  else if category = "amanah" then "amanah"
  else "general"

/-- `Account.query.filter_by(code=...).first()` as issued by the route
helpers: first account in the chart with the given code. -/
def findAccount (chart : List Account) (code : String) : Option Account :=
  chart.find? (fun a => a.code == code)

/-- The `category_to_account` table of `get_income_accounts` in
`src/routes/income.py`, with the `.get(category, '4060')` default.  The route
builds the table from `IncomeCategory` attributes; the key written
`IncomeCategory.SPECIAL_COLLECTION` there is absent from `src/models.py`
(which defines `SPECIAL = 'special'`) and is modelled by its evident string
value `special_collection`. -/
def income_category_to_account (category : String) : String :=
  if category = "donation" then "4000"
  else if category = "zakat" then "4010"
  else if category = "sadaqah" then "4020"
  else if category = "fitrah" then "4030"
  else if category = "special_collection" then "4040"
  else if category = "rental" then "4050"
  else if category = "other" then "4060"
  else "4060"

/-- `get_income_accounts` from `src/routes/income.py`: resolves the credited
income account from the category table and the debited asset account from the
payment mode and the category's fund type (cash then 1000; zakat then 1020;
amanah then 1030; otherwise 1010). -/
def get_income_accounts (chart : List Account) (category payment_mode : String) :
    Option Account × Option Account :=
  let fund_type := FUND_MAPPING category
  let income_account := findAccount chart (income_category_to_account category)
  let asset_account :=
    if payment_mode = "cash" then findAccount chart "1000"
    else if fund_type = "zakat" then findAccount chart "1020"
    else if fund_type = "amanah" then findAccount chart "1030"
    else findAccount chart "1010"
  (income_account, asset_account)

/-- The `category_to_account` table of `get_expense_accounts` in
`src/routes/expenses.py`, with the `.get(category, '5060')` default.  The
route builds the table from `ExpenseCategory` attributes; the keys written
`SALARY`, `VENDOR`, `CHARITY` and `ASSET` there are absent from
`src/models.py` and are modelled by their evident string values. -/
def expense_category_to_account (fund_type category : String) : String :=
  if category = "salary" then "5000"
  else if category = "utilities" then "5010"
  else if category = "maintenance" then "5020"
  else if category = "vendor" then "5030"
  else if category = "charity" then (if fund_type = "zakat" then "5041" else "5040")
  else if category = "asset" then "5050"
  else if category = "other" then "5060"
  else "5060"

/-- `get_expense_accounts` from `src/routes/expenses.py`: resolves the debited
expense account from the category table and the credited asset account from
the payment mode and fund type (same cash/zakat/amanah rule as income). -/
def get_expense_accounts (chart : List Account) (category payment_mode fund_type : String) :
    Option Account × Option Account :=
  let expense_account := findAccount chart (expense_category_to_account fund_type category)
  let asset_account :=
    if payment_mode = "cash" then findAccount chart "1000"
    else if fund_type = "zakat" then findAccount chart "1020"
    else if fund_type = "amanah" then findAccount chart "1030"
    else findAccount chart "1010"
  (expense_account, asset_account)

/-- Builds one row of the default chart (`Account(...)` constructor call in
`create_default_accounts_for_user`); the store-assigned surrogate id is
modelled by the numeric value of the (unique) account code. -/
def mkDefaultAccount (id : Nat) (code name account_type fund_type description : String) :
    Account :=
  { id := id, code := code, name := name, account_type := account_type,
    fund_type := fund_type, description := description, is_active := true }

/-- The `default_accounts` table of `create_default_accounts_for_user` in
`src/models.py`: the full default chart of accounts. -/
def default_accounts : List Account :=
  [ mkDefaultAccount 1000 "1000" "Cash in Hand (نقدی)" "asset" "general" "Physical cash in masjid",
    mkDefaultAccount 1010 "1010" "Bank Account - General" "asset" "general" "Main bank account",
    mkDefaultAccount 1020 "1020" "Bank Account - Zakat" "asset" "zakat" "Zakat fund bank account",
    mkDefaultAccount 1030 "1030" "Bank Account - Sadaqah" "asset" "sadaqah" "Sadaqah fund account",
    mkDefaultAccount 1040 "1040" "Bank Account - Amanah" "asset" "amanah" "Trust/Amanah fund account",
    mkDefaultAccount 1050 "1050" "Bank Account - Lillah" "asset" "lillah" "Lillah fund account",
    mkDefaultAccount 2000 "2000" "Payables" "liability" "general" "Amounts owed",
    mkDefaultAccount 2010 "2010" "Amanah Liability" "liability" "amanah" "Trust amounts to be returned",
    mkDefaultAccount 3000 "3000" "General Fund Balance" "equity" "general" "Net worth - General",
    mkDefaultAccount 3010 "3010" "Zakat Fund Balance" "equity" "zakat" "Net worth - Zakat (Ring-fenced)",
    mkDefaultAccount 3020 "3020" "Sadaqah Fund Balance" "equity" "sadaqah" "Net worth - Sadaqah",
    mkDefaultAccount 3030 "3030" "Amanah Fund Balance" "equity" "amanah" "Net worth - Amanah/Trust",
    mkDefaultAccount 3040 "3040" "Lillah Fund Balance" "equity" "lillah" "Net worth - Lillah",
    mkDefaultAccount 4000 "4000" "Zakat Income (زکوٰۃ)" "income" "zakat" "Zakat received",
    mkDefaultAccount 4010 "4010" "Sadaqah Income (صدقہ)" "income" "sadaqah" "Sadaqah/Charity received",
    mkDefaultAccount 4020 "4020" "Fitrah Income (فطرہ)" "income" "zakat" "Zakat-ul-Fitr received",
    mkDefaultAccount 4030 "4030" "Lillah Income (للّٰہ)" "income" "lillah" "Lillah donations",
    mkDefaultAccount 4040 "4040" "General Donations (عطیہ)" "income" "general" "General donations",
    mkDefaultAccount 4050 "4050" "Rental Income (کرایہ)" "income" "general" "Property rental income",
    mkDefaultAccount 4060 "4060" "Special Collections (خصوصی)" "income" "general" "Special event collections",
    mkDefaultAccount 4070 "4070" "Amanah Received (امانت)" "income" "amanah" "Trust amounts received",
    mkDefaultAccount 4080 "4080" "Other Income (دیگر)" "income" "general" "Miscellaneous income",
    mkDefaultAccount 5000 "5000" "Zakat Disbursement (زکوٰۃ تقسیم)" "expense" "zakat" "Zakat given to eligible recipients",
    mkDefaultAccount 5010 "5010" "Sadaqah Disbursement (صدقہ تقسیم)" "expense" "sadaqah" "Sadaqah given out",
    mkDefaultAccount 5020 "5020" "Salaries & Wages (تنخواہ)" "expense" "general" "Imam, staff salaries",
    mkDefaultAccount 5030 "5030" "Utilities (بجلی پانی)" "expense" "general" "Electricity, water, gas",
    mkDefaultAccount 5040 "5040" "Maintenance (مرمت)" "expense" "general" "Repairs and maintenance",
    mkDefaultAccount 5050 "5050" "Construction (تعمیر)" "expense" "general" "Building and renovation",
    mkDefaultAccount 5060 "5060" "Education (تعلیم)" "expense" "general" "Madrasah and education",
    mkDefaultAccount 5070 "5070" "Events (تقریبات)" "expense" "general" "Islamic events and programs",
    mkDefaultAccount 5080 "5080" "Food & Langar (کھانا)" "expense" "general" "Food for events",
    mkDefaultAccount 5090 "5090" "Supplies (سامان)" "expense" "general" "Masjid supplies",
    mkDefaultAccount 5100 "5100" "Other Expenses (دیگر)" "expense" "general" "Miscellaneous expenses" ]

/-- One loop iteration of `create_default_accounts_for_user`: insert the
default account only when no account with its code exists yet
(`Account.query.filter_by(user_id=..., code=code).first()` is `None`). -/
def seedStep (accs : List Account) (a : Account) : List Account :=
  if accs.any (fun b => b.code == a.code) then accs else accs ++ [a]

/-- `create_default_accounts_for_user` from `src/models.py`, acting on the
given tenant's current list of accounts. -/
def create_default_accounts_for_user (existing : List Account) : List Account :=
  default_accounts.foldl seedStep existing

/-- The default chart as seeded for a fresh tenant. -/
def defaultChart : List Account :=
  create_default_accounts_for_user []

/-- `Account.get_balance` from `src/models.py`: filter the ledger to this
account's journal entries, restrict by the optional start and end dates, then
return total debits minus total credits for asset/expense accounts and the
opposite for all other account types. -/
def get_balance (ledger : List JournalEntry) (acct : Account)
    (start_date end_date : Option Date) : Rat :=
  let q1 : List JournalEntry := ledger.filter (fun e => e.account_id == acct.id)
  let q2 : List JournalEntry := match start_date with
    | some sd => q1.filter (fun e => dateLeb sd e.date)
    | none => q1
  let q3 : List JournalEntry := match end_date with
    | some ed => q2.filter (fun e => dateLeb e.date ed)
    | none => q2
  let total_debit := (q3.map (fun e => e.debit_amount)).sum
  let total_credit := (q3.map (fun e => e.credit_amount)).sum
  if acct.account_type == "asset" || acct.account_type == "expense" then
    total_debit - total_credit
  else
    total_credit - total_debit

/-- Spec-side range predicate for `getBalance` (section 4.1 of the spec):
an entry counts iff it belongs to the account and its date lies in
[start, end], each bound ignored when omitted. -/
def entry_in_scope (acct : Account) (start_date end_date : Option Date)
    (e : JournalEntry) : Bool :=
  (e.account_id == acct.id &&
    (match start_date with
      | some sd => dateLeb sd e.date
      | none => true)) &&
  (match end_date with
    | some ed => dateLeb e.date ed
    | none => true)

/-- Numeric value of a decimal digit character (used when Python's
`int(number[-4:])` parses the 4-digit sequence suffix). -/
def digitVal (c : Char) : Nat :=
  c.toNat - 48

/-- Decimal parse of a list of digit characters, as Python's `int` does on the
sequence suffix. -/
def parseDigits (cs : List Char) : Nat :=
  cs.foldl (fun acc c => 10 * acc + digitVal c) 0

/-- Python's `int(number[-4:])`: parse the last four characters of the stored
document number. -/
def intLast4 (s : String) : Nat :=
  parseDigits (s.data.drop (s.data.length - 4))

/-- Python's `f"%04d" % n` zero-padded formatting of the 4-digit sequence,
for sequences below 10000 (the only range the numbering scheme produces). -/
def pad4 (n : Nat) : String :=
  ⟨[Nat.digitChar (n / 1000 % 10), Nat.digitChar (n / 100 % 10),
    Nat.digitChar (n / 10 % 10), Nat.digitChar (n % 10)]⟩

/-- Lexicographic comparison of character lists by code point, modelling the
relational store's ordering on the `receipt_number` / `voucher_number`
varchar columns (`order_by(...desc())`). -/
def lexLtb : List Char → List Char → Bool
  | _, [] => false
  | [], _ :: _ => true
  | a :: as, b :: bs =>
    if a.toNat < b.toNat then true
    else if b.toNat < a.toNat then false
    else lexLtb as bs

/-- String comparison used by the store when ordering document numbers. -/
def strLtb (s t : String) : Bool :=
  lexLtb s.data t.data

/-- `......order_by(column.desc()).first()`: the maximum element of the query
result under the store's string ordering. -/
def dbLastDesc (l : List String) : Option String :=
  l.foldl
    (fun acc s => match acc with
      | none => some s
      | some m => if strLtb m s then some s else some m)
    none

/-- SQL `LIKE 'pfx%'` filter on a stored document number. -/
def likeMatch (pfx s : String) : Bool :=
  pfx.data.isPrefixOf s.data

/-- The shared body of `Income.generate_receipt_number` and
`Expense.generate_voucher_number` in `src/models.py` (the two are verbatim
copies up to the prefix): filter the tenant's existing numbers to the day's
prefix, take the last one in descending string order, parse its trailing four
digits and add one, else start at 1; format as prefix plus 4-digit sequence. -/
def generate_doc_number (pfx : String) (existing : List String) : String :=
  match dbLastDesc (existing.filter (fun s => likeMatch pfx s)) with
  | some last => pfx ++ pad4 (intLast4 last + 1)
  | none => pfx ++ pad4 1

/-- `Income.generate_receipt_number` from `src/models.py`; `dayKey` is
`datetime.utcnow().strftime('%Y%m%d')` and `existing` the tenant's stored
receipt numbers. -/
def generate_receipt_number (dayKey : String) (existing : List String) : String :=
  generate_doc_number ("RCP" ++ dayKey) existing

/-- `Expense.generate_voucher_number` from `src/models.py`. -/
def generate_voucher_number (dayKey : String) (existing : List String) : String :=
  generate_doc_number ("EXP" ++ dayKey) existing

/-- Spec-side next sequence for a day: 1 on a fresh day, otherwise one more
than the maximum existing sequence for that day. -/
def nextSeq (l : List Nat) : Nat :=
  match l with
  | [] => 1
  | _ :: _ => l.foldl Nat.max 0 + 1

/-- Python's `str.strip()` as applied to the remark fields (whitespace
trimmed from both ends). -/
def stripStr (s : String) : String :=
  ⟨((s.data.dropWhile Char.isWhitespace).reverse.dropWhile Char.isWhitespace).reverse⟩

/-- Rejection outcomes of the route handlers: each constructor corresponds to
one `flash(...); return ...` path that leaves the database unchanged (or, for
`missingAccount`, to the exception-triggered rollback when an account lookup
comes back empty). -/
inductive OpError where
  | missingFields
  | lockedPeriod
  | invalidAmount
  | missingAccount
  | alreadyProcessed
  | selfAction
  | remarksRequired
  | notVerified
  | alreadyReversed
  deriving DecidableEq

/-- A posted transaction together with its journal entries, as created inside
one route handler before `db.session.commit()`. -/
structure Posting where
  txn : Transaction
  entries : List JournalEntry
  deriving DecidableEq

/-- Sum of the debit amounts of a list of journal entries. -/
def sumDebits (l : List JournalEntry) : Rat :=
  (l.map (fun e => e.debit_amount)).sum

/-- Sum of the credit amounts of a list of journal entries. -/
def sumCredits (l : List JournalEntry) : Rat :=
  (l.map (fun e => e.credit_amount)).sum

/-- The POST branch of `create` in `src/routes/income.py`.  Checks follow the
source order: required fields, (date/time parsing is abstracted into the typed
`d` argument), period lock, positive amount; then the fund type is derived
from the category, a receipt number is generated, the income row is built
auto-verified, the account pair is resolved and the balanced transaction is
posted.  `txnId` models the store-assigned id obtained at `db.session.flush()`
and `existing` the tenant's stored receipt numbers. -/
def income_create (locks : List PeriodLock) (chart : List Account)
    (existing : List String) (dayKey : String) (userId txnId : Nat) (d : Date)
    (category source payment_mode : String) (amount : Rat)
    (description : String) : Except OpError (Income × Posting) :=
  if category = "" ∨ source = "" ∨ payment_mode = "" then .error .missingFields
  else if is_period_locked locks d then .error .lockedPeriod
  else if amount ≤ 0 then .error .invalidAmount
  else
    let fund_type := FUND_MAPPING category
    let receipt_number := generate_receipt_number dayKey existing
    let income : Income :=
      { id := 0, receipt_number := receipt_number, transaction_id := none,
        date := d, category := category, fund_type := fund_type,
        source := source, payment_mode := payment_mode, amount := amount,
        description := description, verification_status := "verified",
        verification_remarks := "Auto-verified on creation",
        verified_by_id := some userId, entered_by_id := userId,
        is_reversed := false, reversal_of_id := none }
    match get_income_accounts chart category payment_mode with
    | (some income_account, some asset_account) =>
      let transaction : Transaction :=
        { id := txnId, reference_number := "TXN-" ++ receipt_number,
          transaction_type := "income", date := d,
          description := "Income: " ++ source, fund_type := fund_type,
          total_amount := amount, is_reversed := false,
          reversal_of_id := none, created_by_id := userId }
      let debit_entry : JournalEntry :=
        { transaction_id := txnId, account_id := asset_account.id,
          debit_amount := amount, credit_amount := 0, date := d,
          description := "Receipt: " ++ receipt_number }
      let credit_entry : JournalEntry :=
        { transaction_id := txnId, account_id := income_account.id,
          debit_amount := 0, credit_amount := amount, date := d,
          description := "Receipt: " ++ receipt_number }
      .ok ({ income with transaction_id := some txnId },
           { txn := transaction, entries := [debit_entry, credit_entry] })
    | _ => .error .missingAccount

/-- The POST branch of `create` in `src/routes/expenses.py`, mirrored the same
way (the expense is auto-verified and auto-approved; the debit goes to the
expense account and the credit to the asset account). -/
def expense_create (locks : List PeriodLock) (chart : List Account)
    (existing : List String) (dayKey : String) (userId txnId : Nat) (d : Date)
    (category fund_type payee description : String) (amount : Rat)
    (payment_mode : String) : Except OpError (Expense × Posting) :=
  if category = "" ∨ payee = "" ∨ description = "" ∨ payment_mode = "" then
    .error .missingFields
  else if is_period_locked locks d then .error .lockedPeriod
  else if amount ≤ 0 then .error .invalidAmount
  else
    let voucher_number := generate_voucher_number dayKey existing
    let expense : Expense :=
      { id := 0, voucher_number := voucher_number, transaction_id := none,
        date := d, category := category, fund_type := fund_type,
        payee := payee, description := description, amount := amount,
        payment_mode := payment_mode, verification_status := "verified",
        verification_remarks := "Auto-verified on creation",
        verified_by_id := some userId, approval_status := "approved",
        approval_remarks := "Auto-approved on creation",
        approved_by_id := some userId, entered_by_id := userId,
        is_reversed := false, reversal_of_id := none }
    match get_expense_accounts chart category payment_mode fund_type with
    | (some expense_account, some asset_account) =>
      let transaction : Transaction :=
        { id := txnId, reference_number := "TXN-" ++ voucher_number,
          transaction_type := "expense", date := d,
          description := "Expense: " ++ payee, fund_type := fund_type,
          total_amount := amount, is_reversed := false,
          reversal_of_id := none, created_by_id := userId }
      let debit_entry : JournalEntry :=
        { transaction_id := txnId, account_id := expense_account.id,
          debit_amount := amount, credit_amount := 0, date := d,
          description := "Voucher: " ++ voucher_number }
      let credit_entry : JournalEntry :=
        { transaction_id := txnId, account_id := asset_account.id,
          debit_amount := 0, credit_amount := amount, date := d,
          description := "Voucher: " ++ voucher_number }
      .ok ({ expense with transaction_id := some txnId },
           { txn := transaction, entries := [debit_entry, credit_entry] })
    | _ => .error .missingAccount

/-- `verify` in `src/routes/income.py`: guard order is already-processed,
self-action (with the admin override), empty remarks; on `action = 'verify'`
the income is marked verified and its balanced transaction is posted, on
`action = 'reject'` it is marked rejected with no posting, and any other
action commits no field change. -/
def income_verify (chart : List Account) (inc : Income) (actor : User)
    (txnId : Nat) (action remarks : String) :
    Except OpError (Income × Option Posting) :=
  if inc.verification_status ≠ "pending" then .error .alreadyProcessed
  else if inc.entered_by_id = actor.id ∧ actor.role ≠ Role.admin then
    .error .selfAction
  else if stripStr remarks = "" then .error .remarksRequired
  else if action = "verify" then
    match get_income_accounts chart inc.category inc.payment_mode with
    | (some income_account, some asset_account) =>
      let inc' : Income :=
        { inc with verification_status := "verified",
                   verified_by_id := some actor.id,
                   verification_remarks := stripStr remarks }
      let transaction : Transaction :=
        { id := txnId, reference_number := "TXN-" ++ inc.receipt_number,
          transaction_type := "income", date := inc.date,
          description := "Income: " ++ inc.source, fund_type := inc.fund_type,
          total_amount := inc.amount, is_reversed := false,
          reversal_of_id := none, created_by_id := actor.id }
      let debit_entry : JournalEntry :=
        { transaction_id := txnId, account_id := asset_account.id,
          debit_amount := inc.amount, credit_amount := 0, date := inc.date,
          description := "Receipt: " ++ inc.receipt_number }
      let credit_entry : JournalEntry :=
        { transaction_id := txnId, account_id := income_account.id,
          debit_amount := 0, credit_amount := inc.amount, date := inc.date,
          description := "Receipt: " ++ inc.receipt_number }
      .ok ({ inc' with transaction_id := some txnId },
           some { txn := transaction, entries := [debit_entry, credit_entry] })
    | _ => .error .missingAccount
  else if action = "reject" then
    .ok ({ inc with verification_status := "rejected",
                    verified_by_id := some actor.id,
                    verification_remarks := stripStr remarks }, none)
  else .ok (inc, none)

/-- `verify` in `src/routes/expenses.py`: same guards as income verification;
verifying or rejecting only updates the status fields (posting happens at
approval). -/
def expense_verify (exp : Expense) (actor : User) (action remarks : String) :
    Except OpError Expense :=
  if exp.verification_status ≠ "pending" then .error .alreadyProcessed
  else if exp.entered_by_id = actor.id ∧ actor.role ≠ Role.admin then
    .error .selfAction
  else if stripStr remarks = "" then .error .remarksRequired
  else if action = "verify" then
    .ok { exp with verification_status := "verified",
                   verified_by_id := some actor.id,
                   verification_remarks := stripStr remarks }
  else if action = "reject" then
    .ok { exp with verification_status := "rejected",
                   verified_by_id := some actor.id,
                   verification_remarks := stripStr remarks }
  else .ok exp

/-- `approve` in `src/routes/expenses.py`: guard order is must-be-verified,
already-processed approval, self-action (with the admin override), empty
remarks; on `action = 'approve'` the expense is marked approved and its
balanced transaction is posted. -/
def expense_approve (chart : List Account) (exp : Expense) (actor : User)
    (txnId : Nat) (action remarks : String) :
    Except OpError (Expense × Option Posting) :=
  if exp.verification_status ≠ "verified" then .error .notVerified
  else if exp.approval_status ≠ "pending" then .error .alreadyProcessed
  else if exp.entered_by_id = actor.id ∧ actor.role ≠ Role.admin then
    .error .selfAction
  else if stripStr remarks = "" then .error .remarksRequired
  else if action = "approve" then
    match get_expense_accounts chart exp.category exp.payment_mode exp.fund_type with
    | (some expense_account, some asset_account) =>
      let exp' : Expense :=
        { exp with approval_status := "approved",
                   approved_by_id := some actor.id,
                   approval_remarks := stripStr remarks }
      let transaction : Transaction :=
        { id := txnId, reference_number := "TXN-" ++ exp.voucher_number,
          transaction_type := "expense", date := exp.date,
          description := "Expense: " ++ exp.payee, fund_type := exp.fund_type,
          total_amount := exp.amount, is_reversed := false,
          reversal_of_id := none, created_by_id := actor.id }
      let debit_entry : JournalEntry :=
        { transaction_id := txnId, account_id := expense_account.id,
          debit_amount := exp.amount, credit_amount := 0, date := exp.date,
          description := "Voucher: " ++ exp.voucher_number }
      let credit_entry : JournalEntry :=
        { transaction_id := txnId, account_id := asset_account.id,
          debit_amount := 0, credit_amount := exp.amount, date := exp.date,
          description := "Voucher: " ++ exp.voucher_number }
      .ok ({ exp' with transaction_id := some txnId },
           some { txn := transaction, entries := [debit_entry, credit_entry] })
    | _ => .error .missingAccount
  else if action = "reject" then
    .ok ({ exp with approval_status := "rejected",
                    approved_by_id := some actor.id,
                    approval_remarks := stripStr remarks }, none)
  else .ok (exp, none)

/-- `reverse` in `src/routes/income.py`.  Guard order: already-reversed,
period lock on the original document's date, empty remarks.  Then a mirror
income row numbered `REV-` plus the original number with the negated amount is
built, the original is marked reversed, and, when the original was posted, a
counter-transaction is posted with the original account pair swapped
(debit the income account, credit the asset account) and the original
transaction (`origTxn`, the row behind `income.transaction`) is marked
reversed too.  Returns (updated original, reversal row, updated original
transaction, reversal posting). -/
def income_reverse (locks : List PeriodLock) (chart : List Account)
    (inc : Income) (origTxn : Option Transaction) (today : Date)
    (actorId revTxnId : Nat) (remarks : String) :
    Except OpError (Income × Income × Option Transaction × Option Posting) :=
  if inc.is_reversed then .error .alreadyReversed
  else if is_period_locked locks inc.date then .error .lockedPeriod
  else if stripStr remarks = "" then .error .remarksRequired
  else
    let reversal : Income :=
      { id := 0, receipt_number := "REV-" ++ inc.receipt_number,
        transaction_id := none, date := today, category := inc.category,
        fund_type := inc.fund_type,
        source := "Reversal of " ++ inc.receipt_number,
        payment_mode := inc.payment_mode, amount := -inc.amount,
        description := "Reversal: " ++ stripStr remarks,
        verification_status := "verified",
        verification_remarks := "Auto-verified reversal: " ++ stripStr remarks,
        verified_by_id := some actorId, entered_by_id := actorId,
        is_reversed := false, reversal_of_id := some inc.id }
    let inc' : Income := { inc with is_reversed := true }
    match inc.transaction_id with
    | some tid =>
      match get_income_accounts chart inc.category inc.payment_mode with
      | (some income_account, some asset_account) =>
        let rev_transaction : Transaction :=
          { id := revTxnId,
            reference_number := "TXN-REV-" ++ inc.receipt_number,
            transaction_type := "income_reversal", date := today,
            description := "Reversal of Income: " ++ inc.receipt_number,
            fund_type := inc.fund_type, total_amount := inc.amount,
            is_reversed := false, reversal_of_id := some tid,
            created_by_id := actorId }
        let debit_entry : JournalEntry :=
          { transaction_id := revTxnId, account_id := income_account.id,
            debit_amount := inc.amount, credit_amount := 0, date := today,
            description := "Reversal of Receipt: " ++ inc.receipt_number }
        let credit_entry : JournalEntry :=
          { transaction_id := revTxnId, account_id := asset_account.id,
            debit_amount := 0, credit_amount := inc.amount, date := today,
            description := "Reversal of Receipt: " ++ inc.receipt_number }
        .ok (inc', { reversal with transaction_id := some revTxnId },
             origTxn.map (fun t => { t with is_reversed := true }),
             some { txn := rev_transaction,
                    entries := [debit_entry, credit_entry] })
      | _ => .error .missingAccount
    | none => .ok (inc', reversal, origTxn, none)

/-- `reverse` in `src/routes/expenses.py`, mirrored the same way; the
counter-transaction swaps the original pair the other way round (debit the
asset account, credit the expense account). -/
def expense_reverse (locks : List PeriodLock) (chart : List Account)
    (exp : Expense) (origTxn : Option Transaction) (today : Date)
    (actorId revTxnId : Nat) (remarks : String) :
    Except OpError (Expense × Expense × Option Transaction × Option Posting) :=
  if exp.is_reversed then .error .alreadyReversed
  else if is_period_locked locks exp.date then .error .lockedPeriod
  else if stripStr remarks = "" then .error .remarksRequired
  else
    let reversal : Expense :=
      { id := 0, voucher_number := "REV-" ++ exp.voucher_number,
        transaction_id := none, date := today, category := exp.category,
        fund_type := exp.fund_type,
        payee := "Reversal of " ++ exp.voucher_number,
        description := "Reversal: " ++ stripStr remarks,
        amount := -exp.amount, payment_mode := exp.payment_mode,
        verification_status := "verified",
        verification_remarks := "Auto-verified reversal",
        verified_by_id := some actorId, approval_status := "approved",
        approval_remarks := "Auto-approved reversal: " ++ stripStr remarks,
        approved_by_id := some actorId, entered_by_id := actorId,
        is_reversed := false, reversal_of_id := some exp.id }
    let exp' : Expense := { exp with is_reversed := true }
    match exp.transaction_id with
    | some tid =>
      match get_expense_accounts chart exp.category exp.payment_mode exp.fund_type with
      | (some expense_account, some asset_account) =>
        let rev_transaction : Transaction :=
          { id := revTxnId,
            reference_number := "TXN-REV-" ++ exp.voucher_number,
            transaction_type := "expense_reversal", date := today,
            description := "Reversal of Expense: " ++ exp.voucher_number,
            fund_type := exp.fund_type, total_amount := exp.amount,
            is_reversed := false, reversal_of_id := some tid,
            created_by_id := actorId }
        let debit_entry : JournalEntry :=
          { transaction_id := revTxnId, account_id := asset_account.id,
            debit_amount := exp.amount, credit_amount := 0, date := today,
            description := "Reversal of Voucher: " ++ exp.voucher_number }
        let credit_entry : JournalEntry :=
          { transaction_id := revTxnId, account_id := expense_account.id,
            debit_amount := 0, credit_amount := exp.amount, date := today,
            description := "Reversal of Voucher: " ++ exp.voucher_number }
        .ok (exp', { reversal with transaction_id := some revTxnId },
             origTxn.map (fun t => { t with is_reversed := true }),
             some { txn := rev_transaction,
                    entries := [debit_entry, credit_entry] })
      | _ => .error .missingAccount
    | none => .ok (exp', reversal, origTxn, none)

/-- Concrete posted income row used to exercise the reversal theorem. -/
def wIncomePosted : Income :=
  { id := 3, receipt_number := "RCP202601050001", transaction_id := some 5,
    date := ⟨2026, 1, 5⟩, category := "donation", fund_type := "general",
    source := "Friday box", payment_mode := "cash", amount := 250,
    description := "", verification_status := "verified",
    verification_remarks := "", verified_by_id := some 1, entered_by_id := 1,
    is_reversed := false, reversal_of_id := none }

/-- Concrete pending income row used to exercise the self-action guard. -/
def wIncomePending : Income :=
  { wIncomePosted with
    id := 4, receipt_number := "RCP202601050002",
    transaction_id := none, verification_status := "pending",
    verified_by_id := none, entered_by_id := 2 }

/-- Concrete posted expense row used to exercise the reversal theorem. -/
def wExpensePosted : Expense :=
  { id := 11, voucher_number := "EXP202601050001", transaction_id := some 6,
    date := ⟨2026, 1, 5⟩, category := "utilities", fund_type := "general",
    payee := "Power utility", description := "Electricity bill", amount := 500,
    payment_mode := "cash", verification_status := "verified",
    verification_remarks := "", verified_by_id := some 1,
    approval_status := "approved", approval_remarks := "",
    approved_by_id := some 1, entered_by_id := 1, is_reversed := false,
    reversal_of_id := none }

/-- Concrete pending expense row used to exercise the self-action guard on
verification. -/
def wExpensePending : Expense :=
  { wExpensePosted with
    id := 12, voucher_number := "EXP202601050002",
    transaction_id := none, verification_status := "pending",
    verified_by_id := none, approval_status := "pending",
    approved_by_id := none, entered_by_id := 2 }

/-- Concrete verified, approval-pending expense row used to exercise the
self-action guard on approval. -/
def wExpenseVerified : Expense :=
  { wExpensePending with
    id := 13, voucher_number := "EXP202601050003",
    verification_status := "verified", verified_by_id := some 1 }

/-- Concrete transaction row behind `wIncomePosted`. -/
def wTxnIncome : Transaction :=
  { id := 5, reference_number := "TXN-RCP202601050001",
    transaction_type := "income", date := ⟨2026, 1, 5⟩,
    description := "Income: Friday box", fund_type := "general",
    total_amount := 250, is_reversed := false, reversal_of_id := none,
    created_by_id := 1 }

/-- Concrete transaction row behind `wExpensePosted`. -/
def wTxnExpense : Transaction :=
  { id := 6, reference_number := "TXN-EXP202601050001",
    transaction_type := "expense", date := ⟨2026, 1, 5⟩,
    description := "Expense: Power utility", fund_type := "general",
    total_amount := 500, is_reversed := false, reversal_of_id := none,
    created_by_id := 1 }

/-- Concrete non-admin actor whose id matches the entrant of the pending
sample documents. -/
def wActorStaff : User :=
  { id := 2, role := Role.staff, is_authenticated := true }

/-- Concrete admin actor with the same id. -/
def wActorAdmin : User :=
  { id := 2, role := Role.admin, is_authenticated := true }

/-- Membership of an account code in the current list, as tested by the
seeding loop of `create_default_accounts_for_user`. -/
def hasCode (accs : List Account) (c : String) : Bool :=
  accs.any (fun b => b.code == c)

theorem hasCode_seedStep (accs : List Account) (a : Account) (c : String)
    (h : hasCode accs c = true) : hasCode (seedStep accs a) c = true := by
  unfold seedStep
  split
  · exact h
  · unfold hasCode at h ⊢
    simp only [List.any_append]
    simp [h]

theorem hasCode_foldl (l : List Account) (accs : List Account) (c : String)
    (h : hasCode accs c = true) : hasCode (l.foldl seedStep accs) c = true := by
  induction l generalizing accs with
  | nil => exact h
  | cons a l ih => exact ih _ (hasCode_seedStep _ _ _ h)

theorem hasCode_seedStep_self (accs : List Account) (a : Account) :
    hasCode (seedStep accs a) a.code = true := by
  unfold seedStep hasCode
  split
  · assumption
  · simp [List.any_append]

theorem seed_hasCode (l : List Account) (accs : List Account) :
    ∀ a ∈ l, hasCode (l.foldl seedStep accs) a.code = true := by
  induction l generalizing accs with
  | nil => intro a ha; cases ha
  | cons b l ih =>
    intro a ha
    rcases List.mem_cons.mp ha with h | h
    · subst h
      exact hasCode_foldl l _ _ (hasCode_seedStep_self accs a)
    · exact ih _ a h

theorem seed_noop : ∀ (l : List Account) (accs : List Account),
    (∀ a ∈ l, hasCode accs a.code = true) → l.foldl seedStep accs = accs := by
  intro l
  induction l with
  | nil => intro accs _; rfl
  | cons b l ih =>
    intro accs h
    have hb := h b (List.mem_cons_self b l)
    unfold hasCode at hb
    have hstep : seedStep accs b = accs := by
      unfold seedStep
      simp [hb]
    rw [List.foldl_cons, hstep]
    exact ih accs (fun a ha => h a (List.mem_cons_of_mem b ha))

theorem seedStep_nodup (accs : List Account) (a : Account)
    (h : (accs.map Account.code).Nodup) :
    ((seedStep accs a).map Account.code).Nodup := by
  unfold seedStep
  split
  · exact h
  · rename_i hno
    simp only [List.any_eq_true, beq_iff_eq, not_exists, not_and] at hno
    simp only [List.map_append, List.map_cons, List.map_nil]
    rw [List.nodup_append]
    refine ⟨h, List.nodup_singleton _, ?_⟩
    intro x hx hx'
    simp only [List.mem_singleton] at hx'
    subst hx'
    rcases List.mem_map.mp hx with ⟨b, hb, hbc⟩
    exact hno b hb hbc

theorem seed_foldl_nodup : ∀ (l : List Account) (accs : List Account),
    (accs.map Account.code).Nodup → ((l.foldl seedStep accs).map Account.code).Nodup := by
  intro l
  induction l with
  | nil => intro accs h; exact h
  | cons b l ih => intro accs h; exact ih _ (seedStep_nodup accs b h)

/-- C9: seeding the default chart is idempotent.  A second call of
`create_default_accounts_for_user` returns the list unchanged, because every
default code is already present after the first call; and seeding never
introduces a duplicate account code. -/
theorem create_default_accounts_idempotent (existing : List Account) :
    create_default_accounts_for_user (create_default_accounts_for_user existing) =
      create_default_accounts_for_user existing ∧
    ((existing.map Account.code).Nodup →
      ((create_default_accounts_for_user existing).map Account.code).Nodup) := by
  constructor
  · unfold create_default_accounts_for_user
    exact seed_noop default_accounts _ (fun a ha => seed_hasCode default_accounts existing a ha)
  · intro h
    exact seed_foldl_nodup default_accounts existing h

theorem create_default_accounts_idempotent_w :
    create_default_accounts_for_user (create_default_accounts_for_user []) =
      create_default_accounts_for_user [] ∧
    ((create_default_accounts_for_user []).map Account.code).Nodup :=
  ⟨(create_default_accounts_idempotent []).1,
   (create_default_accounts_idempotent []).2 (by decide)⟩

/-- C10: the permission layer is wide open.  `User.has_permission` returns
true for every permission name, `User.is_read_only` returns false for every
user, the `permission_required` decorator admits exactly the authenticated
users regardless of the named permission, and `read_only_check` admits
everyone. -/
theorem permission_checks_always_pass (u : User) (perm : String) :
    u.has_permission perm = true ∧
    u.is_read_only = false ∧
    permission_required_allows perm u = u.is_authenticated ∧
    read_only_check_allows u = true :=
  ⟨rfl, rfl, rfl, rfl⟩

theorem sum_map_sub (l : List JournalEntry) (f g : JournalEntry → Rat) :
    (l.map (fun e => f e - g e)).sum = (l.map f).sum - (l.map g).sum := by
  induction l with
  | nil => simp
  | cons a l ih =>
    simp only [List.map_cons, List.sum_cons, ih]
    ring

/-- Helper: `get_balance` equals the signed difference of debit and credit
sums over the entries selected by the spec-side range predicate. -/
theorem get_balance_scope (ledger : List JournalEntry) (acct : Account)
    (sd ed : Option Date) :
    get_balance ledger acct sd ed =
      if acct.account_type == "asset" || acct.account_type == "expense" then
        sumDebits (ledger.filter (entry_in_scope acct sd ed)) -
          sumCredits (ledger.filter (entry_in_scope acct sd ed))
      else
        sumCredits (ledger.filter (entry_in_scope acct sd ed)) -
          sumDebits (ledger.filter (entry_in_scope acct sd ed)) := by
  rcases sd with _ | s <;> rcases ed with _ | e
  · have hq : ledger.filter (fun x => x.account_id == acct.id) =
        ledger.filter (entry_in_scope acct none none) := by
      apply List.filter_congr
      intro x _
      simp [entry_in_scope]
    simp only [get_balance, sumDebits, sumCredits]
    rw [hq]
  · have hq : (ledger.filter (fun x => x.account_id == acct.id)).filter
        (fun x => dateLeb x.date e) =
        ledger.filter (entry_in_scope acct none (some e)) := by
      simp only [List.filter_filter]
      apply List.filter_congr
      intro x _
      simp only [entry_in_scope]
      cases h1 : (x.account_id == acct.id) <;> cases h3 : dateLeb x.date e <;> rfl
    simp only [get_balance, sumDebits, sumCredits]
    rw [hq]
  · have hq : (ledger.filter (fun x => x.account_id == acct.id)).filter
        (fun x => dateLeb s x.date) =
        ledger.filter (entry_in_scope acct (some s) none) := by
      simp only [List.filter_filter]
      apply List.filter_congr
      intro x _
      simp only [entry_in_scope]
      cases h1 : (x.account_id == acct.id) <;> cases h2 : dateLeb s x.date <;> rfl
    simp only [get_balance, sumDebits, sumCredits]
    rw [hq]
  · have hq : (((ledger.filter (fun x => x.account_id == acct.id)).filter
        (fun x => dateLeb s x.date)).filter (fun x => dateLeb x.date e)) =
        ledger.filter (entry_in_scope acct (some s) (some e)) := by
      simp only [List.filter_filter]
      apply List.filter_congr
      intro x _
      simp only [entry_in_scope]
      cases h1 : (x.account_id == acct.id) <;> cases h2 : dateLeb s x.date <;>
        cases h3 : dateLeb x.date e <;> rfl
    simp only [get_balance, sumDebits, sumCredits]
    rw [hq]


/-- C7: `Account.get_balance` sums the account's journal entries with date in
[start, end] (each bound ignored when omitted) and returns debits minus
credits for asset and expense accounts and credits minus debits for
liability, equity and income accounts, in exact arithmetic. -/
theorem get_balance_range_and_sign (ledger : List JournalEntry) (acct : Account)
    (sd ed : Option Date) :
    (acct.account_type = "asset" ∨ acct.account_type = "expense" →
      get_balance ledger acct sd ed =
        ((ledger.filter (entry_in_scope acct sd ed)).map
          (fun e => e.debit_amount - e.credit_amount)).sum) ∧
    (acct.account_type = "liability" ∨ acct.account_type = "equity" ∨
        acct.account_type = "income" →
      get_balance ledger acct sd ed =
        ((ledger.filter (entry_in_scope acct sd ed)).map
          (fun e => e.credit_amount - e.debit_amount)).sum) := by
  rw [get_balance_scope]
  constructor
  · intro h
    have hb : (acct.account_type == "asset" || acct.account_type == "expense") = true := by
      rcases h with h | h <;> rw [h] <;> rfl
    rw [if_pos hb, sum_map_sub]
    rfl
  · intro h
    have hb : (acct.account_type == "asset" || acct.account_type == "expense") = false := by
      rcases h with h | h | h <;> rw [h] <;> rfl
    rw [if_neg (by simp [hb]), sum_map_sub]
    rfl


theorem get_balance_range_and_sign_w :
    get_balance [⟨1, 1000, 5, 0, ⟨2026, 1, 5⟩, ""⟩]
      (mkDefaultAccount 1000 "1000" "Cash" "asset" "general" "") none none =
      ((([⟨1, 1000, 5, 0, ⟨2026, 1, 5⟩, ""⟩] : List JournalEntry).filter
        (entry_in_scope (mkDefaultAccount 1000 "1000" "Cash" "asset" "general" "")
          none none)).map
        (fun (e : JournalEntry) => e.debit_amount - e.credit_amount)).sum :=
  (get_balance_range_and_sign [⟨1, 1000, 5, 0, ⟨2026, 1, 5⟩, ""⟩]
    (mkDefaultAccount 1000 "1000" "Cash" "asset" "general" "") none none).1
    (Or.inl rfl)

/-- C1: every posting operation — income creation, income verification,
expense creation, expense approval — creates exactly two journal entries
under its new transaction: one with `debit_amount` equal to the document's
amount and `credit_amount` zero, and one with `credit_amount` equal to the
amount and `debit_amount` zero, both on the same date; hence the sum of the
transaction's debit amounts equals the sum of its credit amounts. -/
theorem posting_creates_balanced_pair :
    (∀ locks chart existing dayKey userId txnId d category source payment_mode
        (amount : Rat) description inc p,
      income_create locks chart existing dayKey userId txnId d category source
          payment_mode amount description = .ok (inc, p) →
      inc.amount = amount ∧ ∃ de ce, p.entries = [de, ce] ∧
        de.debit_amount = amount ∧ de.credit_amount = 0 ∧
        ce.debit_amount = 0 ∧ ce.credit_amount = amount ∧
        de.date = d ∧ ce.date = d ∧
        de.transaction_id = p.txn.id ∧ ce.transaction_id = p.txn.id ∧
        sumDebits p.entries = sumCredits p.entries) ∧
    (∀ chart inc actor txnId action remarks inc' p,
      income_verify chart inc actor txnId action remarks = .ok (inc', some p) →
      ∃ de ce, p.entries = [de, ce] ∧
        de.debit_amount = inc.amount ∧ de.credit_amount = 0 ∧
        ce.debit_amount = 0 ∧ ce.credit_amount = inc.amount ∧
        de.date = inc.date ∧ ce.date = inc.date ∧
        de.transaction_id = p.txn.id ∧ ce.transaction_id = p.txn.id ∧
        sumDebits p.entries = sumCredits p.entries) ∧
    (∀ locks chart existing dayKey userId txnId d category fund_type payee
        description (amount : Rat) payment_mode exp p,
      expense_create locks chart existing dayKey userId txnId d category
          fund_type payee description amount payment_mode = .ok (exp, p) →
      exp.amount = amount ∧ ∃ de ce, p.entries = [de, ce] ∧
        de.debit_amount = amount ∧ de.credit_amount = 0 ∧
        ce.debit_amount = 0 ∧ ce.credit_amount = amount ∧
        de.date = d ∧ ce.date = d ∧
        de.transaction_id = p.txn.id ∧ ce.transaction_id = p.txn.id ∧
        sumDebits p.entries = sumCredits p.entries) ∧
    (∀ chart exp actor txnId action remarks exp' p,
      expense_approve chart exp actor txnId action remarks = .ok (exp', some p) →
      ∃ de ce, p.entries = [de, ce] ∧
        de.debit_amount = exp.amount ∧ de.credit_amount = 0 ∧
        ce.debit_amount = 0 ∧ ce.credit_amount = exp.amount ∧
        de.date = exp.date ∧ ce.date = exp.date ∧
        de.transaction_id = p.txn.id ∧ ce.transaction_id = p.txn.id ∧
        sumDebits p.entries = sumCredits p.entries) := by
  refine ⟨?_, ?_, ?_, ?_⟩
  · intro locks chart existing dayKey userId txnId d category source
      payment_mode amount description inc p h
    unfold income_create at h
    split at h
    · exact Except.noConfusion h
    split at h
    · exact Except.noConfusion h
    split at h
    · exact Except.noConfusion h
    split at h
    · rw [Except.ok.injEq, Prod.mk.injEq] at h
      obtain ⟨hi, hp⟩ := h
      subst hp
      refine ⟨by rw [← hi], _, _, rfl, rfl, rfl, rfl, rfl, rfl, rfl, rfl, rfl, ?_⟩
      simp [sumDebits, sumCredits]
    · exact Except.noConfusion h
  · intro chart inc actor txnId action remarks inc' p h
    unfold income_verify at h
    split at h
    · exact Except.noConfusion h
    split at h
    · exact Except.noConfusion h
    split at h
    · exact Except.noConfusion h
    split at h
    · split at h
      · rw [Except.ok.injEq, Prod.mk.injEq] at h
        obtain ⟨-, hp⟩ := h
        rw [Option.some.injEq] at hp
        subst hp
        refine ⟨_, _, rfl, rfl, rfl, rfl, rfl, rfl, rfl, rfl, rfl, ?_⟩
        simp [sumDebits, sumCredits]
      · exact Except.noConfusion h
    · split at h
      · rw [Except.ok.injEq, Prod.mk.injEq] at h
        exact Option.noConfusion h.2
      · rw [Except.ok.injEq, Prod.mk.injEq] at h
        exact Option.noConfusion h.2
  · intro locks chart existing dayKey userId txnId d category fund_type payee
      description amount payment_mode exp p h
    unfold expense_create at h
    split at h
    · exact Except.noConfusion h
    split at h
    · exact Except.noConfusion h
    split at h
    · exact Except.noConfusion h
    split at h
    · rw [Except.ok.injEq, Prod.mk.injEq] at h
      obtain ⟨hi, hp⟩ := h
      subst hp
      refine ⟨by rw [← hi], _, _, rfl, rfl, rfl, rfl, rfl, rfl, rfl, rfl, rfl, ?_⟩
      simp [sumDebits, sumCredits]
    · exact Except.noConfusion h
  · intro chart exp actor txnId action remarks exp' p h
    unfold expense_approve at h
    split at h
    · exact Except.noConfusion h
    split at h
    · exact Except.noConfusion h
    split at h
    · exact Except.noConfusion h
    split at h
    · exact Except.noConfusion h
    split at h
    · split at h
      · rw [Except.ok.injEq, Prod.mk.injEq] at h
        obtain ⟨-, hp⟩ := h
        rw [Option.some.injEq] at hp
        subst hp
        refine ⟨_, _, rfl, rfl, rfl, rfl, rfl, rfl, rfl, rfl, rfl, ?_⟩
        simp [sumDebits, sumCredits]
      · exact Except.noConfusion h
    · split at h
      · rw [Except.ok.injEq, Prod.mk.injEq] at h
        exact Option.noConfusion h.2
      · rw [Except.ok.injEq, Prod.mk.injEq] at h
        exact Option.noConfusion h.2

theorem posting_creates_balanced_pair_w :
    (∃ inc p, income_create [] defaultChart [] "20260105" 1 5 ⟨2026, 1, 5⟩
        "donation" "Friday box" "cash" 250 "" = .ok (inc, p) ∧
      sumDebits p.entries = sumCredits p.entries) ∧
    (∃ inc' p, income_verify defaultChart wIncomePending wActorAdmin 7
        "verify" "ok" = .ok (inc', some p) ∧
      sumDebits p.entries = sumCredits p.entries) ∧
    (∃ exp p, expense_create [] defaultChart [] "20260105" 1 8 ⟨2026, 1, 5⟩
        "utilities" "general" "Vendor" "Electricity bill" 500 "cash" = .ok (exp, p) ∧
      sumDebits p.entries = sumCredits p.entries) ∧
    (∃ exp' p, expense_approve defaultChart wExpenseVerified wActorAdmin 9
        "approve" "fine" = .ok (exp', some p) ∧
      sumDebits p.entries = sumCredits p.entries) := by
  refine ⟨⟨_, _, rfl, ?_⟩, ⟨_, _, rfl, ?_⟩, ⟨_, _, rfl, ?_⟩, ⟨_, _, rfl, ?_⟩⟩
  · obtain ⟨-, de, ce, -, -, -, -, -, -, -, -, -, hsum⟩ :=
      posting_creates_balanced_pair.1 [] defaultChart [] "20260105" 1 5
        ⟨2026, 1, 5⟩ "donation" "Friday box" "cash" 250 "" _ _ rfl
    exact hsum
  · obtain ⟨de, ce, -, -, -, -, -, -, -, -, -, hsum⟩ :=
      posting_creates_balanced_pair.2.1 defaultChart wIncomePending wActorAdmin
        7 "verify" "ok" _ _ rfl
    exact hsum
  · obtain ⟨-, de, ce, -, -, -, -, -, -, -, -, -, hsum⟩ :=
      posting_creates_balanced_pair.2.2.1 [] defaultChart [] "20260105" 1 8
        ⟨2026, 1, 5⟩ "utilities" "general" "Vendor" "Electricity bill" 500
        "cash" _ _ rfl
    exact hsum
  · obtain ⟨de, ce, -, -, -, -, -, -, -, -, -, hsum⟩ :=
      posting_creates_balanced_pair.2.2.2 defaultChart wExpenseVerified
        wActorAdmin 9 "approve" "fine" _ _ rfl
    exact hsum

/-- C3: the period-lock guard.  For a date in a locked (year, month) period,
income and expense creation and reversal are rejected (an error result, hence
no state change); for a date outside every locked month, the guard never
fires (the operation is never rejected with the locked-period error). -/
theorem period_lock_enforcement :
    (∀ locks chart existing dayKey userId txnId d category source payment_mode
        (amount : Rat) description,
      (is_period_locked locks d = true →
        ∃ er, income_create locks chart existing dayKey userId txnId d category
          source payment_mode amount description = .error er) ∧
      (is_period_locked locks d = false →
        income_create locks chart existing dayKey userId txnId d category
          source payment_mode amount description ≠ .error OpError.lockedPeriod)) ∧
    (∀ locks chart existing dayKey userId txnId d category fund_type payee
        description (amount : Rat) payment_mode,
      (is_period_locked locks d = true →
        ∃ er, expense_create locks chart existing dayKey userId txnId d category
          fund_type payee description amount payment_mode = .error er) ∧
      (is_period_locked locks d = false →
        expense_create locks chart existing dayKey userId txnId d category
          fund_type payee description amount payment_mode ≠
          .error OpError.lockedPeriod)) ∧
    (∀ locks chart inc origTxn today actorId revTxnId remarks,
      (is_period_locked locks inc.date = true →
        ∃ er, income_reverse locks chart inc origTxn today actorId revTxnId
          remarks = .error er) ∧
      (is_period_locked locks inc.date = false →
        income_reverse locks chart inc origTxn today actorId revTxnId remarks ≠
          .error OpError.lockedPeriod)) ∧
    (∀ locks chart exp origTxn today actorId revTxnId remarks,
      (is_period_locked locks exp.date = true →
        ∃ er, expense_reverse locks chart exp origTxn today actorId revTxnId
          remarks = .error er) ∧
      (is_period_locked locks exp.date = false →
        expense_reverse locks chart exp origTxn today actorId revTxnId remarks ≠
          .error OpError.lockedPeriod)) := by
  refine ⟨?_, ?_, ?_, ?_⟩
  · intro locks chart existing dayKey userId txnId d category source
      payment_mode amount description
    constructor
    · intro hlock
      by_cases hf : (category = "" ∨ source = "" ∨ payment_mode = "")
      · exact ⟨.missingFields, by unfold income_create; rw [if_pos hf]⟩
      · exact ⟨.lockedPeriod, by unfold income_create; rw [if_neg hf, if_pos hlock]⟩
    · intro hlock heq
      unfold income_create at heq
      by_cases hf : (category = "" ∨ source = "" ∨ payment_mode = "")
      · rw [if_pos hf] at heq
        simp at heq
      · rw [if_neg hf, if_neg (by simp [hlock])] at heq
        by_cases ha : amount ≤ 0
        · rw [if_pos ha] at heq
          simp at heq
        · rw [if_neg ha] at heq
          split at heq <;> simp at heq
  · intro locks chart existing dayKey userId txnId d category fund_type payee
      description amount payment_mode
    constructor
    · intro hlock
      by_cases hf : (category = "" ∨ payee = "" ∨ description = "" ∨ payment_mode = "")
      · exact ⟨.missingFields, by unfold expense_create; rw [if_pos hf]⟩
      · exact ⟨.lockedPeriod, by unfold expense_create; rw [if_neg hf, if_pos hlock]⟩
    · intro hlock heq
      unfold expense_create at heq
      by_cases hf : (category = "" ∨ payee = "" ∨ description = "" ∨ payment_mode = "")
      · rw [if_pos hf] at heq
        simp at heq
      · rw [if_neg hf, if_neg (by simp [hlock])] at heq
        by_cases ha : amount ≤ 0
        · rw [if_pos ha] at heq
          simp at heq
        · rw [if_neg ha] at heq
          split at heq <;> simp at heq
  · intro locks chart inc origTxn today actorId revTxnId remarks
    constructor
    · intro hlock
      by_cases hr : inc.is_reversed = true
      · exact ⟨.alreadyReversed, by unfold income_reverse; rw [if_pos hr]⟩
      · exact ⟨.lockedPeriod, by unfold income_reverse; rw [if_neg hr, if_pos hlock]⟩
    · intro hlock heq
      unfold income_reverse at heq
      by_cases hr : inc.is_reversed = true
      · rw [if_pos hr] at heq
        simp at heq
      · rw [if_neg hr, if_neg (by simp [hlock])] at heq
        by_cases hm : stripStr remarks = ""
        · rw [if_pos hm] at heq
          simp at heq
        · rw [if_neg hm] at heq
          split at heq
          · split at heq <;> simp at heq
          · simp at heq
  · intro locks chart exp origTxn today actorId revTxnId remarks
    constructor
    · intro hlock
      by_cases hr : exp.is_reversed = true
      · exact ⟨.alreadyReversed, by unfold expense_reverse; rw [if_pos hr]⟩
      · exact ⟨.lockedPeriod, by unfold expense_reverse; rw [if_neg hr, if_pos hlock]⟩
    · intro hlock heq
      unfold expense_reverse at heq
      by_cases hr : exp.is_reversed = true
      · rw [if_pos hr] at heq
        simp at heq
      · rw [if_neg hr, if_neg (by simp [hlock])] at heq
        by_cases hm : stripStr remarks = ""
        · rw [if_pos hm] at heq
          simp at heq
        · rw [if_neg hm] at heq
          split at heq
          · split at heq <;> simp at heq
          · simp at heq

theorem period_lock_enforcement_w :
    (∃ er, income_create [⟨2026, 1⟩] defaultChart [] "20260115" 1 5
        ⟨2026, 1, 15⟩ "donation" "Box" "cash" 100 "" = .error er) ∧
    (income_create [⟨2026, 1⟩] defaultChart [] "20260215" 1 5 ⟨2026, 2, 15⟩
        "donation" "Box" "cash" 100 "" ≠ .error OpError.lockedPeriod) ∧
    (∃ er, expense_create [⟨2026, 1⟩] defaultChart [] "20260115" 1 6
        ⟨2026, 1, 15⟩ "utilities" "general" "Vendor" "bill" 100 "cash" =
        .error er) ∧
    (expense_create [⟨2026, 1⟩] defaultChart [] "20260215" 1 6 ⟨2026, 2, 15⟩
        "utilities" "general" "Vendor" "bill" 100 "cash" ≠
        .error OpError.lockedPeriod) ∧
    (∃ er, income_reverse [⟨2026, 1⟩] defaultChart wIncomePosted
        (some wTxnIncome) ⟨2026, 3, 1⟩ 2 9 "dup" = .error er) ∧
    (income_reverse [] defaultChart wIncomePosted (some wTxnIncome)
        ⟨2026, 3, 1⟩ 2 9 "dup" ≠ .error OpError.lockedPeriod) ∧
    (∃ er, expense_reverse [⟨2026, 1⟩] defaultChart wExpensePosted
        (some wTxnExpense) ⟨2026, 3, 1⟩ 2 9 "dup" = .error er) ∧
    (expense_reverse [] defaultChart wExpensePosted (some wTxnExpense)
        ⟨2026, 3, 1⟩ 2 9 "dup" ≠ .error OpError.lockedPeriod) :=
  ⟨(period_lock_enforcement.1 [⟨2026, 1⟩] defaultChart [] "20260115" 1 5
      ⟨2026, 1, 15⟩ "donation" "Box" "cash" 100 "").1 (by decide),
   (period_lock_enforcement.1 [⟨2026, 1⟩] defaultChart [] "20260215" 1 5
      ⟨2026, 2, 15⟩ "donation" "Box" "cash" 100 "").2 (by decide),
   (period_lock_enforcement.2.1 [⟨2026, 1⟩] defaultChart [] "20260115" 1 6
      ⟨2026, 1, 15⟩ "utilities" "general" "Vendor" "bill" 100 "cash").1 (by decide),
   (period_lock_enforcement.2.1 [⟨2026, 1⟩] defaultChart [] "20260215" 1 6
      ⟨2026, 2, 15⟩ "utilities" "general" "Vendor" "bill" 100 "cash").2 (by decide),
   (period_lock_enforcement.2.2.1 [⟨2026, 1⟩] defaultChart wIncomePosted
      (some wTxnIncome) ⟨2026, 3, 1⟩ 2 9 "dup").1 (by decide),
   (period_lock_enforcement.2.2.1 [] defaultChart wIncomePosted
      (some wTxnIncome) ⟨2026, 3, 1⟩ 2 9 "dup").2 (by decide),
   (period_lock_enforcement.2.2.2 [⟨2026, 1⟩] defaultChart wExpensePosted
      (some wTxnExpense) ⟨2026, 3, 1⟩ 2 9 "dup").1 (by decide),
   (period_lock_enforcement.2.2.2 [] defaultChart wExpensePosted
      (some wTxnExpense) ⟨2026, 3, 1⟩ 2 9 "dup").2 (by decide)⟩

/-- C4: the separation-of-duties guard.  A pending document's entrant cannot
verify (or, for expenses, approve) their own entry — the operation fails with
the self-action rejection and no status change — unless the actor holds the
admin role, in which case the self-action guard does not fire. -/
theorem self_action_guard :
    (∀ chart inc actor txnId action remarks,
      inc.verification_status = "pending" →
      inc.entered_by_id = actor.id →
      (actor.role ≠ Role.admin →
        income_verify chart inc actor txnId action remarks =
          .error OpError.selfAction) ∧
      (actor.role = Role.admin →
        income_verify chart inc actor txnId action remarks ≠
          .error OpError.selfAction)) ∧
    (∀ exp actor action remarks,
      Expense.verification_status exp = "pending" →
      Expense.entered_by_id exp = actor.id →
      (actor.role ≠ Role.admin →
        expense_verify exp actor action remarks = .error OpError.selfAction) ∧
      (actor.role = Role.admin →
        expense_verify exp actor action remarks ≠ .error OpError.selfAction)) ∧
    (∀ chart exp actor txnId action remarks,
      Expense.verification_status exp = "verified" →
      Expense.approval_status exp = "pending" →
      Expense.entered_by_id exp = actor.id →
      (actor.role ≠ Role.admin →
        expense_approve chart exp actor txnId action remarks =
          .error OpError.selfAction) ∧
      (actor.role = Role.admin →
        expense_approve chart exp actor txnId action remarks ≠
          .error OpError.selfAction)) := by
  refine ⟨?_, ?_, ?_⟩
  · intro chart inc actor txnId action remarks hp he
    constructor
    · intro hrole
      unfold income_verify
      rw [if_neg (by simp [hp]), if_pos ⟨he, hrole⟩]
    · intro hadmin heq
      unfold income_verify at heq
      rw [if_neg (by simp [hp]), if_neg (fun hc => hc.2 hadmin)] at heq
      by_cases hm : stripStr remarks = ""
      · rw [if_pos hm] at heq
        simp at heq
      · rw [if_neg hm] at heq
        by_cases hv : action = "verify"
        · rw [if_pos hv] at heq
          split at heq <;> simp at heq
        · rw [if_neg hv] at heq
          by_cases hr : action = "reject"
          · rw [if_pos hr] at heq
            simp at heq
          · rw [if_neg hr] at heq
            simp at heq
  · intro exp actor action remarks hp he
    constructor
    · intro hrole
      unfold expense_verify
      rw [if_neg (by simp [hp]), if_pos ⟨he, hrole⟩]
    · intro hadmin heq
      unfold expense_verify at heq
      rw [if_neg (by simp [hp]), if_neg (fun hc => hc.2 hadmin)] at heq
      by_cases hm : stripStr remarks = ""
      · rw [if_pos hm] at heq
        simp at heq
      · rw [if_neg hm] at heq
        by_cases hv : action = "verify"
        · rw [if_pos hv] at heq
          simp at heq
        · rw [if_neg hv] at heq
          by_cases hr : action = "reject"
          · rw [if_pos hr] at heq
            simp at heq
          · rw [if_neg hr] at heq
            simp at heq
  · intro chart exp actor txnId action remarks hv ha he
    constructor
    · intro hrole
      unfold expense_approve
      rw [if_neg (by simp [hv]), if_neg (by simp [ha]), if_pos ⟨he, hrole⟩]
    · intro hadmin heq
      unfold expense_approve at heq
      rw [if_neg (by simp [hv]), if_neg (by simp [ha]),
        if_neg (fun hc => hc.2 hadmin)] at heq
      by_cases hm : stripStr remarks = ""
      · rw [if_pos hm] at heq
        simp at heq
      · rw [if_neg hm] at heq
        by_cases hap : action = "approve"
        · rw [if_pos hap] at heq
          split at heq <;> simp at heq
        · rw [if_neg hap] at heq
          by_cases hr : action = "reject"
          · rw [if_pos hr] at heq
            simp at heq
          · rw [if_neg hr] at heq
            simp at heq

theorem self_action_guard_w :
    (income_verify defaultChart wIncomePending wActorStaff 7 "verify" "ok" =
      .error OpError.selfAction) ∧
    (income_verify defaultChart wIncomePending wActorAdmin 7 "verify" "ok" ≠
      .error OpError.selfAction) ∧
    (expense_verify wExpensePending wActorStaff "verify" "ok" =
      .error OpError.selfAction) ∧
    (expense_verify wExpensePending wActorAdmin "verify" "ok" ≠
      .error OpError.selfAction) ∧
    (expense_approve defaultChart wExpenseVerified wActorStaff 9 "approve" "ok" =
      .error OpError.selfAction) ∧
    (expense_approve defaultChart wExpenseVerified wActorAdmin 9 "approve" "ok" ≠
      .error OpError.selfAction) :=
  ⟨(self_action_guard.1 defaultChart wIncomePending wActorStaff 7 "verify" "ok"
      rfl rfl).1 (by decide),
   (self_action_guard.1 defaultChart wIncomePending wActorAdmin 7 "verify" "ok"
      rfl rfl).2 rfl,
   (self_action_guard.2.1 wExpensePending wActorStaff "verify" "ok"
      rfl rfl).1 (by decide),
   (self_action_guard.2.1 wExpensePending wActorAdmin "verify" "ok"
      rfl rfl).2 rfl,
   (self_action_guard.2.2 defaultChart wExpenseVerified wActorStaff 9 "approve"
      "ok" rfl rfl rfl).1 (by decide),
   (self_action_guard.2.2 defaultChart wExpenseVerified wActorAdmin 9 "approve"
      "ok" rfl rfl rfl).2 rfl⟩

/-- C5 (divergence witnessed): evaluating the non-cash asset-account
resolution on the default chart.  For an income in the sadaqah fund the code
picks the general bank account 1010 even though the sadaqah-specific bank
account 1030 exists; for an expense from the amanah fund it picks account
1030 — which the chart tags as the sadaqah fund's bank account — even though
the amanah-specific bank account 1040 exists; the lillah fund likewise falls
through to 1010 although 1050 exists. -/
theorem asset_account_fund_mismatch :
    (∃ a, (get_income_accounts defaultChart "sadaqah" "bank").2 = some a ∧
      a.code = "1010" ∧ a.fund_type = "general") ∧
    (∃ b, findAccount defaultChart "1030" = some b ∧
      b.account_type = "asset" ∧ b.fund_type = "sadaqah") ∧
    (∃ c, (get_expense_accounts defaultChart "utilities" "bank" "amanah").2 =
        some c ∧ c.code = "1030" ∧ c.fund_type = "sadaqah") ∧
    (∃ d, findAccount defaultChart "1040" = some d ∧
      d.account_type = "asset" ∧ d.fund_type = "amanah") ∧
    (∃ a, (get_income_accounts defaultChart "lillah" "bank").2 = some a ∧
      a.code = "1010" ∧ a.fund_type = "general") ∧
    (∃ b, findAccount defaultChart "1050" = some b ∧
      b.account_type = "asset" ∧ b.fund_type = "lillah") :=
  ⟨⟨_, rfl, rfl, rfl⟩, ⟨_, rfl, rfl, rfl⟩, ⟨_, rfl, rfl, rfl⟩,
   ⟨_, rfl, rfl, rfl⟩, ⟨_, rfl, rfl, rfl⟩, ⟨_, rfl, rfl, rfl⟩⟩

/-- C6 (divergence witnessed): creating the spec's scenario expense
(category utilities, 500.00, cash, general fund) against the default chart.
The voucher number, the cash credit of 500.00 against account 1000 and the
stored `transaction_id` all match the claim, but the 500.00 debit lands on
account code 5010, which the default chart names Sadaqah Disbursement — not
on the chart's utilities expense account 5030. -/
theorem expense_utilities_scenario_divergence :
    ∃ exp p de ce,
      expense_create [] defaultChart [] "20260101" 1 7 ⟨2026, 1, 1⟩ "utilities"
        "general" "Vendor" "Electricity bill" 500 "cash" = .ok (exp, p) ∧
      exp.voucher_number = "EXP202601010001" ∧
      exp.transaction_id = some 7 ∧
      p.entries = [de, ce] ∧
      de.debit_amount = 500 ∧ de.credit_amount = 0 ∧
      ce.debit_amount = 0 ∧ ce.credit_amount = 500 ∧
      (∃ cash, findAccount defaultChart "1000" = some cash ∧
        cash.name = "Cash in Hand (نقدی)" ∧ ce.account_id = cash.id) ∧
      de.account_id = 5010 ∧
      (∃ sad, findAccount defaultChart "5010" = some sad ∧
        sad.name = "Sadaqah Disbursement (صدقہ تقسیم)") ∧
      (∃ util, findAccount defaultChart "5030" = some util ∧
        util.name = "Utilities (بجلی پانی)" ∧ de.account_id ≠ util.id) := by
  refine ⟨_, _, _, _, rfl, rfl, rfl, rfl, rfl, rfl, rfl, rfl,
    ⟨_, rfl, rfl, rfl⟩, rfl, ⟨_, rfl, rfl⟩, ⟨_, rfl, rfl, by decide⟩⟩

theorem get_balance_append (l1 l2 : List JournalEntry) (acct : Account) :
    get_balance (l1 ++ l2) acct none none =
      get_balance l1 acct none none + get_balance l2 acct none none := by
  unfold get_balance
  simp only [List.filter_append, List.map_append, List.sum_append]
  rcases Bool.eq_false_or_eq_true
      (acct.account_type == "asset" || acct.account_type == "expense") with h | h <;>
    simp only [h] <;> simp <;> ring

theorem get_balance_cancel4 (pre : List JournalEntry) (e1 e2 f1 f2 : JournalEntry)
    (acct : Account) (A B : Nat) (X : Rat)
    (he1a : e1.account_id = A) (he1d : e1.debit_amount = X) (he1c : e1.credit_amount = 0)
    (he2a : e2.account_id = B) (he2d : e2.debit_amount = 0) (he2c : e2.credit_amount = X)
    (hf1a : f1.account_id = B) (hf1d : f1.debit_amount = X) (hf1c : f1.credit_amount = 0)
    (hf2a : f2.account_id = A) (hf2d : f2.debit_amount = 0) (hf2c : f2.credit_amount = X) :
    get_balance (pre ++ [e1, e2, f1, f2]) acct none none =
      get_balance pre acct none none := by
  rw [get_balance_append]
  have hz : get_balance [e1, e2, f1, f2] acct none none = 0 := by
    unfold get_balance
    by_cases hA : A = acct.id <;> by_cases hB : B = acct.id <;>
      simp [List.filter_cons, he1a, he1d, he1c, he2a, he2d, he2c,
        hf1a, hf1d, hf1c, hf2a, hf2d, hf2c, hA, hB]
  rw [hz, add_zero]

/-- C2: reversal of a posted, not-yet-reversed document (lock not engaged,
remarks supplied) creates a mirror document numbered `REV-` plus the original
number with the negated amount, marks the original document and its
transaction reversed, and posts a counter-transaction over the same two
accounts with debit and credit swapped and the same amount, so that adding
the original posting's pair and the reversal pair to any ledger leaves every
account's overall `get_balance` unchanged while all four entries remain in
the ledger list. -/
theorem reversal_nets_to_zero :
    (∀ locks chart (inc : Income) tid otxn today actorId revTxnId remarks
        incAcct assetAcct,
      inc.is_reversed = false →
      is_period_locked locks inc.date = false →
      stripStr remarks ≠ "" →
      inc.transaction_id = some tid →
      get_income_accounts chart inc.category inc.payment_mode =
        (some incAcct, some assetAcct) →
      ∃ inc2 rev otxn2 p de ce,
        income_reverse locks chart inc (some otxn) today actorId revTxnId
          remarks = .ok (inc2, rev, some otxn2, some p) ∧
        rev.receipt_number = "REV-" ++ inc.receipt_number ∧
        rev.amount = -inc.amount ∧
        rev.reversal_of_id = some inc.id ∧
        inc2.is_reversed = true ∧
        otxn2.is_reversed = true ∧
        p.txn.reversal_of_id = some tid ∧
        p.txn.total_amount = inc.amount ∧
        p.entries = [de, ce] ∧
        de.account_id = incAcct.id ∧ de.debit_amount = inc.amount ∧
        de.credit_amount = 0 ∧
        ce.account_id = assetAcct.id ∧ ce.debit_amount = 0 ∧
        ce.credit_amount = inc.amount ∧
        (∀ (pre : List JournalEntry) (e1 e2 : JournalEntry) (acct : Account),
          e1.account_id = assetAcct.id → e1.debit_amount = inc.amount →
          e1.credit_amount = 0 →
          e2.account_id = incAcct.id → e2.debit_amount = 0 →
          e2.credit_amount = inc.amount →
          get_balance (pre ++ [e1, e2, de, ce]) acct none none =
            get_balance pre acct none none)) ∧
    (∀ locks chart (exp : Expense) tid otxn today actorId revTxnId remarks
        expAcct assetAcct,
      exp.is_reversed = false →
      is_period_locked locks exp.date = false →
      stripStr remarks ≠ "" →
      exp.transaction_id = some tid →
      get_expense_accounts chart exp.category exp.payment_mode exp.fund_type =
        (some expAcct, some assetAcct) →
      ∃ exp2 rev otxn2 p de ce,
        expense_reverse locks chart exp (some otxn) today actorId revTxnId
          remarks = .ok (exp2, rev, some otxn2, some p) ∧
        rev.voucher_number = "REV-" ++ exp.voucher_number ∧
        rev.amount = -exp.amount ∧
        rev.reversal_of_id = some exp.id ∧
        exp2.is_reversed = true ∧
        otxn2.is_reversed = true ∧
        p.txn.reversal_of_id = some tid ∧
        p.txn.total_amount = exp.amount ∧
        p.entries = [de, ce] ∧
        de.account_id = assetAcct.id ∧ de.debit_amount = exp.amount ∧
        de.credit_amount = 0 ∧
        ce.account_id = expAcct.id ∧ ce.debit_amount = 0 ∧
        ce.credit_amount = exp.amount ∧
        (∀ (pre : List JournalEntry) (e1 e2 : JournalEntry) (acct : Account),
          e1.account_id = expAcct.id → e1.debit_amount = exp.amount →
          e1.credit_amount = 0 →
          e2.account_id = assetAcct.id → e2.debit_amount = 0 →
          e2.credit_amount = exp.amount →
          get_balance (pre ++ [e1, e2, de, ce]) acct none none =
            get_balance pre acct none none)) := by
  constructor
  · intro locks chart inc tid otxn today actorId revTxnId remarks incAcct
      assetAcct h1 h2 h3 h4 h5
    unfold income_reverse
    rw [if_neg (by simp [h1]), if_neg (by simp [h2]), if_neg h3, h4, h5]
    refine ⟨_, _, _, _, _, _, rfl, rfl, rfl, rfl, rfl, rfl, rfl, rfl, rfl,
      rfl, rfl, rfl, rfl, rfl, rfl, ?_⟩
    intro pre e1 e2 acct g1 g2 g3 g4 g5 g6
    exact get_balance_cancel4 pre e1 e2 _ _ acct assetAcct.id incAcct.id
      inc.amount g1 g2 g3 g4 g5 g6 rfl rfl rfl rfl rfl rfl
  · intro locks chart exp tid otxn today actorId revTxnId remarks expAcct
      assetAcct h1 h2 h3 h4 h5
    unfold expense_reverse
    rw [if_neg (by simp [h1]), if_neg (by simp [h2]), if_neg h3, h4, h5]
    refine ⟨_, _, _, _, _, _, rfl, rfl, rfl, rfl, rfl, rfl, rfl, rfl, rfl,
      rfl, rfl, rfl, rfl, rfl, rfl, ?_⟩
    intro pre e1 e2 acct g1 g2 g3 g4 g5 g6
    exact get_balance_cancel4 pre e1 e2 _ _ acct expAcct.id assetAcct.id
      exp.amount g1 g2 g3 g4 g5 g6 rfl rfl rfl rfl rfl rfl

theorem reversal_nets_to_zero_w :
    (∃ inc2 rev otxn2 p, income_reverse [] defaultChart wIncomePosted
        (some wTxnIncome) ⟨2026, 3, 1⟩ 2 9 "dup" =
        .ok (inc2, rev, some otxn2, some p) ∧
      rev.receipt_number = "REV-" ++ wIncomePosted.receipt_number ∧
      rev.amount = -wIncomePosted.amount ∧ inc2.is_reversed = true ∧
      otxn2.is_reversed = true) ∧
    (∃ exp2 rev otxn2 p, expense_reverse [] defaultChart wExpensePosted
        (some wTxnExpense) ⟨2026, 3, 1⟩ 2 9 "dup" =
        .ok (exp2, rev, some otxn2, some p) ∧
      rev.voucher_number = "REV-" ++ wExpensePosted.voucher_number ∧
      rev.amount = -wExpensePosted.amount ∧ exp2.is_reversed = true ∧
      otxn2.is_reversed = true) := by
  constructor
  · obtain ⟨inc2, rev, otxn2, p, de, ce, heq, ha, hb, -, hc, hd, -⟩ :=
      reversal_nets_to_zero.1 [] defaultChart wIncomePosted 5 wTxnIncome
        ⟨2026, 3, 1⟩ 2 9 "dup" _ _ rfl rfl (by decide) rfl rfl
    exact ⟨inc2, rev, otxn2, p, heq, ha, hb, hc, hd⟩
  · obtain ⟨exp2, rev, otxn2, p, de, ce, heq, ha, hb, -, hc, hd, -⟩ :=
      reversal_nets_to_zero.2 [] defaultChart wExpensePosted 6 wTxnExpense
        ⟨2026, 3, 1⟩ 2 9 "dup" _ _ rfl rfl (by decide) rfl rfl
    exact ⟨exp2, rev, otxn2, p, heq, ha, hb, hc, hd⟩

theorem digitChar_lt_iff {a b : Nat} (ha : a < 10) (hb : b < 10) :
    ((Nat.digitChar a).toNat < (Nat.digitChar b).toNat) ↔ a < b := by
  interval_cases a <;> interval_cases b <;> decide

theorem digitVal_digitChar {a : Nat} (ha : a < 10) :
    digitVal (Nat.digitChar a) = a := by
  interval_cases a <;> decide

theorem data_append (s t : String) : (s ++ t).data = s.data ++ t.data := by
  rcases s with ⟨a⟩
  rcases t with ⟨b⟩
  rfl

theorem intLast4_append_pad4 (pfx : String) (n : Nat) (hn : n < 10000) :
    intLast4 (pfx ++ pad4 n) = n := by
  unfold intLast4
  rw [data_append]
  have hdata : (pad4 n).data = [Nat.digitChar (n / 1000 % 10),
      Nat.digitChar (n / 100 % 10), Nat.digitChar (n / 10 % 10),
      Nat.digitChar (n % 10)] := rfl
  rw [hdata]
  simp only [List.length_append, List.length_cons, List.length_nil]
  rw [show pfx.data.length + (0 + 1 + 1 + 1 + 1) - 4 = pfx.data.length from by omega]
  rw [List.drop_left]
  unfold parseDigits
  simp only [List.foldl_cons, List.foldl_nil]
  rw [digitVal_digitChar (Nat.mod_lt _ (by norm_num)),
    digitVal_digitChar (Nat.mod_lt _ (by norm_num)),
    digitVal_digitChar (Nat.mod_lt _ (by norm_num)),
    digitVal_digitChar (Nat.mod_lt _ (by norm_num))]
  omega

theorem lex4 {a3 a2 a1 a0 b3 b2 b1 b0 : Nat}
    (ha3 : a3 < 10) (ha2 : a2 < 10) (ha1 : a1 < 10) (ha0 : a0 < 10)
    (hb3 : b3 < 10) (hb2 : b2 < 10) (hb1 : b1 < 10) (hb0 : b0 < 10) :
    lexLtb [Nat.digitChar a3, Nat.digitChar a2, Nat.digitChar a1, Nat.digitChar a0]
      [Nat.digitChar b3, Nat.digitChar b2, Nat.digitChar b1, Nat.digitChar b0] = true ↔
    1000 * a3 + 100 * a2 + 10 * a1 + a0 < 1000 * b3 + 100 * b2 + 10 * b1 + b0 := by
  simp only [lexLtb]
  split_ifs with h1 h2 h3 h4 h5 h6 h7 h8 <;>
    simp only [digitChar_lt_iff ha3 hb3, digitChar_lt_iff hb3 ha3,
      digitChar_lt_iff ha2 hb2, digitChar_lt_iff hb2 ha2,
      digitChar_lt_iff ha1 hb1, digitChar_lt_iff hb1 ha1,
      digitChar_lt_iff ha0 hb0, digitChar_lt_iff hb0 ha0] at * <;>
    simp <;> omega

theorem pad4_lt_iff {s t : Nat} (hs : s < 10000) (ht : t < 10000) :
    lexLtb (pad4 s).data (pad4 t).data = true ↔ s < t := by
  have hdata : ∀ n : Nat, (pad4 n).data = [Nat.digitChar (n / 1000 % 10),
      Nat.digitChar (n / 100 % 10), Nat.digitChar (n / 10 % 10),
      Nat.digitChar (n % 10)] := fun n => rfl
  rw [hdata, hdata,
    lex4 (Nat.mod_lt _ (by norm_num)) (Nat.mod_lt _ (by norm_num))
      (Nat.mod_lt _ (by norm_num)) (Nat.mod_lt _ (by norm_num))
      (Nat.mod_lt _ (by norm_num)) (Nat.mod_lt _ (by norm_num))
      (Nat.mod_lt _ (by norm_num)) (Nat.mod_lt _ (by norm_num))]
  omega

theorem lexLtb_append_same (c x y : List Char) :
    lexLtb (c ++ x) (c ++ y) = lexLtb x y := by
  induction c with
  | nil => rfl
  | cons a c ih =>
    simp only [List.cons_append, lexLtb, Nat.lt_irrefl, if_false]
    exact ih

theorem strLtb_append_pad4 (pfx : String) {a n : Nat} (ha : a < 10000)
    (hn : n < 10000) :
    strLtb (pfx ++ pad4 a) (pfx ++ pad4 n) = true ↔ a < n := by
  unfold strLtb
  rw [data_append, data_append, lexLtb_append_same]
  exact pad4_lt_iff ha hn

theorem foldl_max_lt : ∀ (l : List Nat) (a : Nat), a < 10000 →
    (∀ m ∈ l, m < 10000) → l.foldl Nat.max a < 10000 := by
  intro l
  induction l with
  | nil => intro a ha _; exact ha
  | cons n l ih =>
    intro a ha hl
    rw [List.foldl_cons]
    have hn : n < 10000 := hl n (List.mem_cons_self n l)
    exact ih (Nat.max a n)
      (by
        rcases Nat.le_total a n with h | h
        · have hm : Nat.max a n = n := Nat.max_eq_right h
          rw [hm]; exact hn
        · have hm : Nat.max a n = a := Nat.max_eq_left h
          rw [hm]; exact ha)
      (fun m hm => hl m (List.mem_cons_of_mem n hm))

theorem dbFold_map (pfx : String) : ∀ (l : List Nat) (a : Nat), a < 10000 →
    (∀ m ∈ l, m < 10000) →
    List.foldl
      (fun acc s => match acc with
        | none => some s
        | some m => if strLtb m s then some s else some m)
      (some (pfx ++ pad4 a)) (l.map (fun k => pfx ++ pad4 k)) =
      some (pfx ++ pad4 (l.foldl Nat.max a)) := by
  intro l
  induction l with
  | nil => intro a _ _; rfl
  | cons n l ih =>
    intro a ha hl
    have hn : n < 10000 := hl n (List.mem_cons_self n l)
    simp only [List.map_cons, List.foldl_cons]
    by_cases han : a < n
    · rw [if_pos ((strLtb_append_pad4 pfx ha hn).mpr han)]
      have hm : Nat.max a n = n := Nat.max_eq_right (Nat.le_of_lt han)
      rw [hm]
      exact ih n hn (fun m hm => hl m (List.mem_cons_of_mem n hm))
    · rw [if_neg (fun hc => han ((strLtb_append_pad4 pfx ha hn).mp hc))]
      have hm : Nat.max a n = a := Nat.max_eq_left (Nat.le_of_not_lt han)
      rw [hm]
      exact ih a ha (fun m hm => hl m (List.mem_cons_of_mem n hm))

theorem generate_doc_spec (pfx : String) (existing : List String) (l : List Nat)
    (hfil : existing.filter (fun s => likeMatch pfx s) =
      l.map (fun n => pfx ++ pad4 n))
    (hl : ∀ n ∈ l, n < 9999) :
    generate_doc_number pfx existing = pfx ++ pad4 (nextSeq l) := by
  unfold generate_doc_number
  rw [hfil]
  cases l with
  | nil => rfl
  | cons n l =>
    have hn : n < 10000 := Nat.lt_trans (hl n (List.mem_cons_self n l)) (by norm_num)
    have hl' : ∀ m ∈ l, m < 10000 :=
      fun m hm => Nat.lt_trans (hl m (List.mem_cons_of_mem n hm)) (by norm_num)
    have hdb : dbLastDesc ((n :: l).map (fun k => pfx ++ pad4 k)) =
        some (pfx ++ pad4 (l.foldl Nat.max n)) := by
      unfold dbLastDesc
      simp only [List.map_cons, List.foldl_cons]
      exact dbFold_map pfx l n hn hl'
    rw [hdb]
    have hmax : l.foldl Nat.max n < 10000 := foldl_max_lt l n hn hl'
    show pfx ++ pad4 (intLast4 (pfx ++ pad4 (l.foldl Nat.max n)) + 1) =
      pfx ++ pad4 (nextSeq (n :: l))
    rw [intLast4_append_pad4 pfx _ hmax]
    have hseq : nextSeq (n :: l) = l.foldl Nat.max n + 1 := by
      unfold nextSeq
      have hm : Nat.max 0 n = n := Nat.max_eq_right (Nat.zero_le n)
      rw [List.foldl_cons, hm]
    rw [hseq]

/-- C8: document numbering.  When the stored numbers for the day's prefix are
exactly the prefix followed by the 4-digit paddings of a set of sequence
numbers, the next generated receipt (RCP) or voucher (EXP) number carries the
same day prefix and the 4-digit sequence one greater than the day's maximum;
on a fresh day (no existing numbers for the prefix) the sequence is 0001. -/
theorem document_numbering (dayKey : String) (l : List Nat)
    (existingR existingV : List String)
    (hR : existingR.filter (fun s => likeMatch ("RCP" ++ dayKey) s) =
      l.map (fun n => ("RCP" ++ dayKey) ++ pad4 n))
    (hV : existingV.filter (fun s => likeMatch ("EXP" ++ dayKey) s) =
      l.map (fun n => ("EXP" ++ dayKey) ++ pad4 n))
    (hl : ∀ n ∈ l, n < 9999) :
    generate_receipt_number dayKey existingR =
      ("RCP" ++ dayKey) ++ pad4 (nextSeq l) ∧
    generate_voucher_number dayKey existingV =
      ("EXP" ++ dayKey) ++ pad4 (nextSeq l) ∧
    (l = [] →
      generate_receipt_number dayKey existingR = ("RCP" ++ dayKey) ++ "0001" ∧
      generate_voucher_number dayKey existingV = ("EXP" ++ dayKey) ++ "0001") := by
  refine ⟨generate_doc_spec _ _ l hR hl, generate_doc_spec _ _ l hV hl, ?_⟩
  intro he
  subst he
  have hz : pad4 (nextSeq ([] : List Nat)) = "0001" := by decide
  rw [← hz]
  exact ⟨generate_doc_spec _ _ [] hR hl, generate_doc_spec _ _ [] hV hl⟩

theorem document_numbering_w :
    generate_receipt_number "20260101" ["RCP202601010001", "RCP202601010002"] =
      ("RCP" ++ "20260101") ++ pad4 3 ∧
    generate_voucher_number "20260101" ["EXP202601010001", "EXP202601010002"] =
      ("EXP" ++ "20260101") ++ pad4 3 := by
  have h := document_numbering "20260101" [1, 2]
    ["RCP202601010001", "RCP202601010002"] ["EXP202601010001", "EXP202601010002"]
    (by decide) (by decide) (by decide)
  exact ⟨h.1, h.2.1⟩
